import Mathlib

/-!
Verification of the `ackp` key-identity core (`src/ackp/key_identity.go`).

The Go code is shallowly embedded: byte slices become `List Nat`, Go
pointers become `Option`, the `io.Writer` sink becomes an explicit state
with a per-call success schedule, and the external collaborators
(standard-library marshalers, the `acutl` compress and base64 helpers,
the AEAD PEM encryptor, the key generators, the file system) become
abstract function parameters, since their code is out of scope or not
under `src/`.
-/

/-- Byte sequence of an ASCII string, as natural numbers. -/
def bytes (s : String) : List Nat := s.data.map Char.toNat

/-- Randomness source capability (a stream of entropy bytes); stands for `rand.Reader`. -/
abbrev Rng := List Nat

/-- Public half of an RSA key (`crypto/rsa.PublicKey`), kept as opaque bytes. -/
structure RSAPublicKey where
  data : List Nat
  deriving DecidableEq

/-- RSA private key (`crypto/rsa.PrivateKey`): embedded public key plus secret material `D`. -/
structure RSAPrivateKey where
  PublicKey : RSAPublicKey
  D : List Nat
  deriving DecidableEq

/-- Go method `Public()` on an RSA private key returns the embedded public key. -/
def RSAPrivateKey.Public (k : RSAPrivateKey) : RSAPublicKey := k.PublicKey

/-- Public half of an ECDSA key (`crypto/ecdsa.PublicKey`), kept as opaque bytes. -/
structure ECDSAPublicKey where
  data : List Nat
  deriving DecidableEq

/-- ECDSA private key (`crypto/ecdsa.PrivateKey`): embedded public key plus secret material `D`. -/
structure ECDSAPrivateKey where
  PublicKey : ECDSAPublicKey
  D : List Nat
  deriving DecidableEq

/-- Go method `Public()` on an ECDSA private key returns the embedded public key. -/
def ECDSAPrivateKey.Public (k : ECDSAPrivateKey) : ECDSAPublicKey := k.PublicKey

/-- Modelled from the spec: the repository type `Ed25519PrivateKey` (declared outside
`src/`) is "an Ed25519 keypair record holding both secret and public byte arrays";
the source accesses its `Pub` field. -/
structure Ed25519PrivateKey where
  Pub : List Nat
  Priv : List Nat
  deriving DecidableEq

/-- Source constant `KEYRSA = iota` (0). -/
def KEYRSA : Nat := 0

/-- Source constant `KEYECDSA` (1). -/
def KEYECDSA : Nat := 1

/-- Source constant `KEYEC25519` (2). -/
def KEYEC25519 : Nat := 2

/-- The identity key variant store: an integer tag plus three optional (pointer) slots,
mirroring the Go struct `IdentityKey`. -/
structure IdentityKey where
  keyType : Nat
  rsa : Option RSAPrivateKey
  ecdsa : Option ECDSAPrivateKey
  ec25519 : Option Ed25519PrivateKey
  deriving DecidableEq

/-- Embedding of the method `Type()` (named with a prime because `Type` is a Lean keyword):
a switch on the stored tag. -/
def IdentityKey.Type' (i : IdentityKey) : String :=
  if i.keyType = KEYRSA then "ac-rsa"
  else if i.keyType = KEYECDSA then "ac-ecdsa"
  else if i.keyType = KEYEC25519 then "ac-ec25519"
  else ""

/-- An `io.Writer` sink: a per-call success schedule, a call counter, and the bytes
accepted so far. -/
structure Sink where
  ok : Nat → Bool
  calls : Nat
  out : List Nat

/-- One `wr.Write(p)` call: on success the bytes are appended; the returned `Bool` is
the success flag (Go returns `(n, err)`; the callers in this file ignore it exactly
where the source does). -/
def Sink.write (w : Sink) (p : List Nat) : Sink × Bool :=
  if w.ok w.calls then ({ w with calls := w.calls + 1, out := w.out ++ p }, true)
  else ({ w with calls := w.calls + 1 }, false)

/-- A fresh sink that accepts every write. -/
def freshWriter : Sink := { ok := fun _ => true, calls := 0, out := [] }

/-- A fresh sink whose write calls with index at least `n` fail. -/
def writerFailFrom (n : Nat) : Sink :=
  { ok := fun m => decide (m < n), calls := 0, out := [] }

/-- A PEM block (`encoding/pem.Block`): type line plus payload bytes. -/
structure PemBlock where
  BlockType : String
  Bytes : List Nat
  deriving DecidableEq

/-- Result of a Go call in the embedding: a normal `nil` return, a returned error,
or a nil-pointer panic (dereference of an unpopulated slot). -/
inductive Outcome where
  | ok : Outcome
  | goErr : String → Outcome
  | nilPanic : Outcome
  deriving DecidableEq

/-- External collaborators of the core, abstract because their code is out of scope.
`MarshalPKIXPublicKeyRSA` and `MarshalPKIXPublicKeyECDSA` stand for
`x509.MarshalPKIXPublicKey` at the two receiver types, `Asn1Marshal` for
`asn1.Marshal` on a byte slice, `MarshalPKCS1PrivateKey` for the Go function of
that name (which returns no error), `MarshalECPrivateKey` likewise, and
`PemEncode` for `pem.Encode` (which writes to the sink and may return an error).
`CompressData` and `B64EncodeData` are modelled from the spec: they are the
`acutl` compression and text-safe encoding helpers, repository code not under
`src/`; the spec says compression may fail and encoding is a pure reversible
transform. `AEADEncryptPEMBlock` is modelled from the spec: repository code not
under `src/` that derives a key from the password, encrypts the marshaled key
bytes with fresh randomness, and returns a PEM block, or fails. -/
structure Collab where
  MarshalPKIXPublicKeyRSA : RSAPublicKey → Except String (List Nat)
  MarshalPKIXPublicKeyECDSA : ECDSAPublicKey → Except String (List Nat)
  Asn1Marshal : List Nat → Except String (List Nat)
  CompressData : List Nat → Except String (List Nat)
  B64EncodeData : List Nat → List Nat
  MarshalPKCS1PrivateKey : RSAPrivateKey → List Nat
  MarshalECPrivateKey : ECDSAPrivateKey → Except String (List Nat)
  AEADEncryptPEMBlock : Rng → String → List Nat → List Nat → Except String PemBlock
  PemEncode : Sink → PemBlock → Sink × Option String

/-- Tail of `PubToPKIX` after the switch: the shared error checks, the compression,
the text encoding, and the three write calls whose results the source discards. -/
def pubToPKIXBody (c : Collab) (marshalRes : Except String (List Nat)) (keyHdr : List Nat)
    (wr : Sink) : Sink × Outcome :=
  match marshalRes with
  | .error e => (wr, .goErr e)
  | .ok keyBin =>
    match c.CompressData keyBin with
    | .error e => (wr, .goErr e)
    | .ok b64comp =>
      let b64pub := c.B64EncodeData b64comp
      let w1 := (wr.write keyHdr).1
      let w2 := (w1.write (bytes " ")).1
      let w3 := (w2.write b64pub).1
      (w3, .ok)

/-- Embedding of `(i *IdentityKey) PubToPKIX(wr io.Writer) error`: switch on the tag,
marshal the public half, then the shared tail. A `none` slot is a nil-pointer panic,
as in Go. -/
def IdentityKey.PubToPKIX (i : IdentityKey) (c : Collab) (wr : Sink) : Sink × Outcome :=
  if i.keyType = KEYRSA then
    match i.rsa with
    | none => (wr, .nilPanic)
    | some k => pubToPKIXBody c (c.MarshalPKIXPublicKeyRSA k.Public) (bytes "ac-rsa") wr
  else if i.keyType = KEYECDSA then
    match i.ecdsa with
    | none => (wr, .nilPanic)
    | some k => pubToPKIXBody c (c.MarshalPKIXPublicKeyECDSA k.Public) (bytes "ac-ecdsa") wr
  else if i.keyType = KEYEC25519 then
    match i.ec25519 with
    | none => (wr, .nilPanic)
    | some k => pubToPKIXBody c (c.Asn1Marshal k.Pub) (bytes "ac-25519") wr
  else (wr, .goErr "invalid key type")

/-- Tail of `PrivToPKIX` after the switch: the shared error check, the AEAD
encryption under the password, and `pem.Encode` to the sink. -/
def privToPKIXBody (c : Collab) (rng : Rng) (keyHeader : String)
    (keyDerRes : Except String (List Nat)) (wr : Sink) (passwd : List Nat) :
    Sink × Outcome :=
  match keyDerRes with
  | .error e => (wr, .goErr e)
  | .ok keyDer =>
    match c.AEADEncryptPEMBlock rng keyHeader keyDer passwd with
    | .error e => (wr, .goErr e)
    | .ok pemKey =>
      match c.PemEncode wr pemKey with
      | (w2, none) => (w2, .ok)
      | (w2, some e) => (w2, .goErr e)

/-- Embedding of `(i *IdentityKey) PrivToPKIX(wr io.Writer, passwd []byte) error`.
The Ed25519 arm marshals the `Pub` field, exactly as the source line
`keyDer, err = asn1.Marshal(i.ec25519.Pub[:])` does. -/
def IdentityKey.PrivToPKIX (i : IdentityKey) (c : Collab) (rng : Rng) (wr : Sink)
    (passwd : List Nat) : Sink × Outcome :=
  if i.keyType = KEYRSA then
    match i.rsa with
    | none => (wr, .nilPanic)
    | some k =>
      privToPKIXBody c rng "RSA PRIVATE KEY" (.ok (c.MarshalPKCS1PrivateKey k)) wr passwd
  else if i.keyType = KEYECDSA then
    match i.ecdsa with
    | none => (wr, .nilPanic)
    | some k =>
      privToPKIXBody c rng "ECDSA PRIVATE KEY" (c.MarshalECPrivateKey k) wr passwd
  else if i.keyType = KEYEC25519 then
    match i.ec25519 with
    | none => (wr, .nilPanic)
    | some k =>
      privToPKIXBody c rng "EC25519 PRIVATE KEY" (c.Asn1Marshal k.Pub) wr passwd
  else (wr, .goErr "invalid key type")

/-- One `os.OpenFile` request: path, flag bits, permission bits. -/
structure OpenCall where
  path : String
  flags : Nat
  mode : Nat
  deriving DecidableEq

/-- File-system collaborator: whether an open of a path succeeds, and the
write-success schedule of the file handle obtained for that path. -/
structure FS where
  openOk : String → Bool
  sched : String → Nat → Bool

/-- Go flag constant `os.O_WRONLY` (linux value). -/
def O_WRONLY : Nat := 1

/-- Go flag constant `os.O_CREATE` (linux value). -/
def O_CREATE : Nat := 64

/-- Go flag constant `os.O_TRUNC` (linux value). -/
def O_TRUNC : Nat := 512

/-- The flag combination `os.O_CREATE|os.O_TRUNC|os.O_WRONLY` used by both file
operations of the source (the bits are disjoint, so the Go bitwise or is a sum). -/
def openFlagsCTW : Nat := O_CREATE + O_TRUNC + O_WRONLY

/-- Observable run of `ToKeyFiles`: the open requests issued, the bytes landed in
the public file and in the private file, and the returned outcome. -/
structure KeyFilesRun where
  opens : List OpenCall
  pubOut : List Nat
  privOut : List Nat
  res : Outcome
  deriving DecidableEq

/-- Embedding of `(i *IdentityKey) ToKeyFiles(prefix string, passwd []byte) error`:
open `prefix+".pub"` with mode 0600, open `prefix` with mode 0700, write the public
record to the first and the private block to the second, stopping at the first
failure as the source does. -/
def IdentityKey.ToKeyFiles (i : IdentityKey) (c : Collab) (fs : FS) (rng : Rng)
    (pfx : String) (passwd : List Nat) : KeyFilesRun :=
  let openPub : OpenCall := { path := pfx ++ ".pub", flags := openFlagsCTW, mode := 0o600 }
  if fs.openOk (pfx ++ ".pub") = false then
    { opens := [openPub], pubOut := [], privOut := [], res := .goErr "open error" }
  else
    let openPriv : OpenCall := { path := pfx, flags := openFlagsCTW, mode := 0o700 }
    if fs.openOk pfx = false then
      { opens := [openPub, openPriv], pubOut := [], privOut := [], res := .goErr "open error" }
    else
      let pubW : Sink := { ok := fs.sched (pfx ++ ".pub"), calls := 0, out := [] }
      match i.PubToPKIX c pubW with
      | (pubW2, .ok) =>
        let privW : Sink := { ok := fs.sched pfx, calls := 0, out := [] }
        let (privW2, r2) := i.PrivToPKIX c rng privW passwd
        { opens := [openPub, openPriv], pubOut := pubW2.out, privOut := privW2.out, res := r2 }
      | (pubW2, r1) =>
        { opens := [openPub, openPriv], pubOut := pubW2.out, privOut := [], res := r1 }

/-- Observable run of `FromKeyFiles`: the open requests issued, the returned key
pointer, and the returned error. -/
structure FromKeyFilesRun where
  opens : List OpenCall
  key : Option IdentityKey
  err : Option String
  deriving DecidableEq

/-- Embedding of `FromKeyFiles(prefix string) (*IdentityKey, error)`: the source
opens both paths with `os.O_CREATE|os.O_TRUNC|os.O_WRONLY` (modes 0600 and 0700),
reads nothing, and returns `nil, nil` when both opens succeed. -/
def FromKeyFiles (fs : FS) (pfx : String) : FromKeyFilesRun :=
  let openPub : OpenCall := { path := pfx ++ ".pub", flags := openFlagsCTW, mode := 0o600 }
  if fs.openOk (pfx ++ ".pub") = false then
    { opens := [openPub], key := none, err := some "open error" }
  else
    let openPriv : OpenCall := { path := pfx, flags := openFlagsCTW, mode := 0o700 }
    if fs.openOk pfx = false then
      { opens := [openPub, openPriv], key := none, err := some "open error" }
    else
      { opens := [openPub, openPriv], key := none, err := none }

/-- Modelled from the spec: the per-algorithm key generators `GenKeysRSA`,
`GenKeysECDSA`, `GenKeysED25519` (repository code not under `src/`) each take the
randomness source and produce fresh key material, or fail when the randomness
source or primitive fails. -/
structure Gens where
  GenKeysRSA : Rng → Except String RSAPrivateKey
  GenKeysECDSA : Rng → Except String ECDSAPrivateKey
  GenKeysED25519 : Rng → Except String Ed25519PrivateKey

/-- Embedding of `NewIdentityKey(keytype int) (*IdentityKey, error)`. The source
allocates a zero-valued struct, sets the tag, stores the generator result in the
matching slot (`nil` on failure), and ends with `return i, nil`, so the captured
generator error is discarded; only the `default` arm returns an error. -/
def NewIdentityKey (g : Gens) (rng : Rng) (keytype : Nat) :
    Option IdentityKey × Option String :=
  if keytype = KEYRSA then
    match g.GenKeysRSA rng with
    | .ok k =>
      (some { keyType := keytype, rsa := some k, ecdsa := none, ec25519 := none }, none)
    | .error _ =>
      (some { keyType := keytype, rsa := none, ecdsa := none, ec25519 := none }, none)
  else if keytype = KEYECDSA then
    match g.GenKeysECDSA rng with
    | .ok k =>
      (some { keyType := keytype, rsa := none, ecdsa := some k, ec25519 := none }, none)
    | .error _ =>
      (some { keyType := keytype, rsa := none, ecdsa := none, ec25519 := none }, none)
  else if keytype = KEYEC25519 then
    match g.GenKeysED25519 rng with
    | .ok k =>
      (some { keyType := keytype, rsa := none, ecdsa := none, ec25519 := some k }, none)
    | .error _ =>
      (some { keyType := keytype, rsa := none, ecdsa := none, ec25519 := none }, none)
  else (none, some "invalid type")

/-- Revealing AEAD stand-in used in concrete runs: it stores the header and the
plaintext verbatim in the block, so the sink shows what the source encrypted. -/
def aeadReveal : Rng → String → List Nat → List Nat → Except String PemBlock :=
  fun _ hdr der _ => .ok { BlockType := hdr, Bytes := der }

/-- Revealing `pem.Encode` stand-in used in concrete runs: it writes the type-line
bytes followed by the payload, and surfaces a write failure as an error. -/
def pemReveal : Sink → PemBlock → Sink × Option String :=
  fun w blk =>
    match w.write (bytes blk.BlockType ++ blk.Bytes) with
    | (w2, true) => (w2, none)
    | (w2, false) => (w2, some "pem write error")

/-- Identity-like concrete collaborators for concrete runs: marshaling and
compression are the identity on the stored bytes, and the AEAD and PEM stages
reveal their inputs. -/
def cId : Collab :=
  { MarshalPKIXPublicKeyRSA := fun p => .ok p.data
    MarshalPKIXPublicKeyECDSA := fun p => .ok p.data
    Asn1Marshal := fun bs => .ok bs
    CompressData := fun bs => .ok bs
    B64EncodeData := fun bs => bs
    MarshalPKCS1PrivateKey := fun k => k.D
    MarshalECPrivateKey := fun k => .ok k.D
    AEADEncryptPEMBlock := aeadReveal
    PemEncode := pemReveal }

/-- A concrete RSA identity: public bytes `[7]`, secret bytes `[9]`. -/
def kRSA : IdentityKey :=
  { keyType := 0, rsa := some { PublicKey := { data := [7] }, D := [9] },
    ecdsa := none, ec25519 := none }

/-- A concrete ECDSA identity: public bytes `[5]`, secret bytes `[6]`. -/
def kECDSA : IdentityKey :=
  { keyType := 1, rsa := none,
    ecdsa := some { PublicKey := { data := [5] }, D := [6] }, ec25519 := none }

/-- A concrete Ed25519 identity with empty public bytes. -/
def kEC : IdentityKey :=
  { keyType := 2, rsa := none, ecdsa := none,
    ec25519 := some { Pub := [], Priv := [3] } }

/-- A concrete Ed25519 identity whose public and secret bytes differ: `Pub = [1]`,
`Priv = [2]`. -/
def kEC2 : IdentityKey :=
  { keyType := 2, rsa := none, ecdsa := none,
    ec25519 := some { Pub := [1], Priv := [2] } }

/-- Generators that all fail, standing for a broken randomness source. -/
def gFail : Gens :=
  { GenKeysRSA := fun _ => .error "rng failure"
    GenKeysECDSA := fun _ => .error "rng failure"
    GenKeysED25519 := fun _ => .error "rng failure" }

/-- Generators that all succeed with fixed material. -/
def gOk : Gens :=
  { GenKeysRSA := fun _ => .ok { PublicKey := { data := [7] }, D := [9] }
    GenKeysECDSA := fun _ => .ok { PublicKey := { data := [5] }, D := [6] }
    GenKeysED25519 := fun _ => .ok { Pub := [1], Priv := [2] } }

/-- A file system on which every open succeeds and every write succeeds. -/
def fsAll : FS := { openOk := fun _ => true, sched := fun _ _ => true }

/-- Outcome of `pubToPKIXBody` as a function of the marshal result alone (the
write results are discarded by the source, so the sink never influences it). -/
def bodyRes (c : Collab) (mr : Except String (List Nat)) : Outcome :=
  match mr with
  | .error e => .goErr e
  | .ok bin =>
    match c.CompressData bin with
    | .error e => .goErr e
    | .ok _ => .ok

/-- Bytes `pubToPKIXBody` appends to an all-accepting sink, as a function of the
marshal result and header alone. -/
def bodyBytes (c : Collab) (mr : Except String (List Nat)) (hdr : List Nat) : List Nat :=
  match mr with
  | .error _ => []
  | .ok bin =>
    match c.CompressData bin with
    | .error _ => []
    | .ok comp => hdr ++ (bytes " " ++ c.B64EncodeData comp)

/-- Outcome of `PubToPKIX` as a function of the identity and collaborators alone. -/
def pubRes (c : Collab) (i : IdentityKey) : Outcome :=
  if i.keyType = KEYRSA then
    match i.rsa with
    | none => .nilPanic
    | some k => bodyRes c (c.MarshalPKIXPublicKeyRSA k.Public)
  else if i.keyType = KEYECDSA then
    match i.ecdsa with
    | none => .nilPanic
    | some k => bodyRes c (c.MarshalPKIXPublicKeyECDSA k.Public)
  else if i.keyType = KEYEC25519 then
    match i.ec25519 with
    | none => .nilPanic
    | some k => bodyRes c (c.Asn1Marshal k.Pub)
  else .goErr "invalid key type"

/-- Bytes `PubToPKIX` appends to an all-accepting sink, as a function of the
identity and collaborators alone. -/
def pubBytes (c : Collab) (i : IdentityKey) : List Nat :=
  if i.keyType = KEYRSA then
    match i.rsa with
    | none => []
    | some k => bodyBytes c (c.MarshalPKIXPublicKeyRSA k.Public) (bytes "ac-rsa")
  else if i.keyType = KEYECDSA then
    match i.ecdsa with
    | none => []
    | some k => bodyBytes c (c.MarshalPKIXPublicKeyECDSA k.Public) (bytes "ac-ecdsa")
  else if i.keyType = KEYEC25519 then
    match i.ec25519 with
    | none => []
    | some k => bodyBytes c (c.Asn1Marshal k.Pub) (bytes "ac-25519")
  else []

/-- Bytes a successful `pubToPKIXBody` appends to an all-accepting sink, and the
outcome, as one equation: the record is header, one space, encoded compressed key. -/
theorem pubToPKIXBody_ok_run (c : Collab) (bin comp : List Nat) (hdr : List Nat) (w : Sink)
    (hok : ∀ n, w.ok n = true) (hc : c.CompressData bin = .ok comp) :
    pubToPKIXBody c (.ok bin) hdr w
      = ({ ok := w.ok, calls := w.calls + 1 + 1 + 1,
           out := w.out ++ (hdr ++ (bytes " " ++ c.B64EncodeData comp)) }, .ok) := by
  simp [pubToPKIXBody, hc, Sink.write, hok, List.append_assoc]

/-- A marshal failure makes `pubToPKIXBody` return the error with nothing written. -/
theorem pubToPKIXBody_marshal_err (c : Collab) (hdr : List Nat) (w : Sink) (e : String) :
    pubToPKIXBody c (.error e) hdr w = (w, .goErr e) := rfl

/-- A compression failure makes `pubToPKIXBody` return the error with nothing written. -/
theorem pubToPKIXBody_compress_err (c : Collab) (bin : List Nat) (hdr : List Nat) (w : Sink)
    (e : String) (hc : c.CompressData bin = .error e) :
    pubToPKIXBody c (.ok bin) hdr w = (w, .goErr e) := by
  simp [pubToPKIXBody, hc]

/-- The outcome of `pubToPKIXBody` on an all-accepting sink depends only on the
marshal result and the collaborators. -/
theorem pubToPKIXBody_res (c : Collab) (mr : Except String (List Nat)) (hdr : List Nat)
    (w : Sink) (hok : ∀ n, w.ok n = true) :
    (pubToPKIXBody c mr hdr w).2 = bodyRes c mr := by
  cases mr with
  | error e => rfl
  | ok bin =>
    cases hc : c.CompressData bin with
    | error e => simp [pubToPKIXBody, bodyRes, hc]
    | ok comp => simp [pubToPKIXBody, bodyRes, hc, Sink.write, hok]

/-- The bytes `pubToPKIXBody` appends to an all-accepting sink depend only on the
marshal result, the header and the collaborators. -/
theorem pubToPKIXBody_out (c : Collab) (mr : Except String (List Nat)) (hdr : List Nat)
    (w : Sink) (hok : ∀ n, w.ok n = true) :
    (pubToPKIXBody c mr hdr w).1.out = w.out ++ bodyBytes c mr hdr := by
  cases mr with
  | error e => simp [pubToPKIXBody, bodyBytes]
  | ok bin =>
    cases hc : c.CompressData bin with
    | error e => simp [pubToPKIXBody, bodyBytes, hc]
    | ok comp => simp [pubToPKIXBody, bodyBytes, hc, Sink.write, hok, List.append_assoc]

/-- The outcome of `PubToPKIX` on an all-accepting sink depends only on the
identity and the collaborators. -/
theorem PubToPKIX_res (c : Collab) (i : IdentityKey) (w : Sink)
    (hok : ∀ n, w.ok n = true) :
    (i.PubToPKIX c w).2 = pubRes c i := by
  unfold IdentityKey.PubToPKIX pubRes
  by_cases hR : i.keyType = KEYRSA
  · rw [if_pos hR, if_pos hR]
    cases i.rsa with
    | none => rfl
    | some k => exact pubToPKIXBody_res c _ _ w hok
  · rw [if_neg hR, if_neg hR]
    by_cases hE : i.keyType = KEYECDSA
    · rw [if_pos hE, if_pos hE]
      cases i.ecdsa with
      | none => rfl
      | some k => exact pubToPKIXBody_res c _ _ w hok
    · rw [if_neg hE, if_neg hE]
      by_cases hC : i.keyType = KEYEC25519
      · rw [if_pos hC, if_pos hC]
        cases i.ec25519 with
        | none => rfl
        | some k => exact pubToPKIXBody_res c _ _ w hok
      · rw [if_neg hC, if_neg hC]

/-- The bytes `PubToPKIX` appends to an all-accepting sink depend only on the
identity and the collaborators. -/
theorem PubToPKIX_out (c : Collab) (i : IdentityKey) (w : Sink)
    (hok : ∀ n, w.ok n = true) :
    (i.PubToPKIX c w).1.out = w.out ++ pubBytes c i := by
  unfold IdentityKey.PubToPKIX pubBytes
  by_cases hR : i.keyType = KEYRSA
  · rw [if_pos hR, if_pos hR]
    cases i.rsa with
    | none => simp
    | some k => exact pubToPKIXBody_out c _ _ w hok
  · rw [if_neg hR, if_neg hR]
    by_cases hE : i.keyType = KEYECDSA
    · rw [if_pos hE, if_pos hE]
      cases i.ecdsa with
      | none => simp
      | some k => exact pubToPKIXBody_out c _ _ w hok
    · rw [if_neg hE, if_neg hE]
      by_cases hC : i.keyType = KEYEC25519
      · rw [if_pos hC, if_pos hC]
        cases i.ec25519 with
        | none => simp
        | some k => exact pubToPKIXBody_out c _ _ w hok
      · rw [if_neg hC, if_neg hC]
        simp

/-- Run equation of `PubToPKIX` on an RSA identity with successful collaborators. -/
theorem PubToPKIX_rsa_run (c : Collab) (i : IdentityKey) (k : RSAPrivateKey)
    (bin comp : List Nat) (w : Sink) (hok : ∀ n, w.ok n = true)
    (hT : i.keyType = KEYRSA) (hk : i.rsa = some k)
    (hm : c.MarshalPKIXPublicKeyRSA k.Public = .ok bin)
    (hc : c.CompressData bin = .ok comp) :
    i.PubToPKIX c w
      = ({ ok := w.ok, calls := w.calls + 1 + 1 + 1,
           out := w.out ++ (bytes "ac-rsa" ++ (bytes " " ++ c.B64EncodeData comp)) }, .ok) := by
  rw [IdentityKey.PubToPKIX, if_pos hT, hk]
  show pubToPKIXBody c (c.MarshalPKIXPublicKeyRSA k.Public) (bytes "ac-rsa") w = _
  rw [hm]
  exact pubToPKIXBody_ok_run c bin comp (bytes "ac-rsa") w hok hc

/-- Run equation of `PubToPKIX` on an ECDSA identity with successful collaborators. -/
theorem PubToPKIX_ecdsa_run (c : Collab) (i : IdentityKey) (k : ECDSAPrivateKey)
    (bin comp : List Nat) (w : Sink) (hok : ∀ n, w.ok n = true)
    (hT : i.keyType = KEYECDSA) (hk : i.ecdsa = some k)
    (hm : c.MarshalPKIXPublicKeyECDSA k.Public = .ok bin)
    (hc : c.CompressData bin = .ok comp) :
    i.PubToPKIX c w
      = ({ ok := w.ok, calls := w.calls + 1 + 1 + 1,
           out := w.out ++ (bytes "ac-ecdsa" ++ (bytes " " ++ c.B64EncodeData comp)) }, .ok) := by
  have hne : ¬ i.keyType = KEYRSA := by simp [hT, KEYRSA, KEYECDSA]
  rw [IdentityKey.PubToPKIX, if_neg hne, if_pos hT, hk]
  show pubToPKIXBody c (c.MarshalPKIXPublicKeyECDSA k.Public) (bytes "ac-ecdsa") w = _
  rw [hm]
  exact pubToPKIXBody_ok_run c bin comp (bytes "ac-ecdsa") w hok hc

/-- Run equation of `PubToPKIX` on an Ed25519 identity with successful collaborators:
the emitted header is `ac-25519`. -/
theorem PubToPKIX_ec25519_run (c : Collab) (i : IdentityKey) (k : Ed25519PrivateKey)
    (bin comp : List Nat) (w : Sink) (hok : ∀ n, w.ok n = true)
    (hT : i.keyType = KEYEC25519) (hk : i.ec25519 = some k)
    (hm : c.Asn1Marshal k.Pub = .ok bin)
    (hc : c.CompressData bin = .ok comp) :
    i.PubToPKIX c w
      = ({ ok := w.ok, calls := w.calls + 1 + 1 + 1,
           out := w.out ++ (bytes "ac-25519" ++ (bytes " " ++ c.B64EncodeData comp)) }, .ok) := by
  have h1 : ¬ i.keyType = KEYRSA := by simp [hT, KEYRSA, KEYEC25519]
  have h2 : ¬ i.keyType = KEYECDSA := by simp [hT, KEYECDSA, KEYEC25519]
  rw [IdentityKey.PubToPKIX, if_neg h1, if_neg h2, if_pos hT, hk]
  show pubToPKIXBody c (c.Asn1Marshal k.Pub) (bytes "ac-25519") w = _
  rw [hm]
  exact pubToPKIXBody_ok_run c bin comp (bytes "ac-25519") w hok hc

/-- Run equation of `privToPKIXBody` with the revealing AEAD and PEM collaborators:
the sink receives the header bytes followed by the plaintext handed to the AEAD. -/
theorem privToPKIXBody_reveal_run (c : Collab) (rng : Rng) (hdr : String) (der : List Nat)
    (w : Sink) (pw : List Nat) (hok : ∀ n, w.ok n = true)
    (hA : c.AEADEncryptPEMBlock = aeadReveal) (hP : c.PemEncode = pemReveal) :
    privToPKIXBody c rng hdr (.ok der) w pw
      = ({ ok := w.ok, calls := w.calls + 1, out := w.out ++ (bytes hdr ++ der) }, .ok) := by
  simp [privToPKIXBody, hA, hP, aeadReveal, pemReveal, Sink.write, hok]

/-- Run equation of `PrivToPKIX` on an RSA identity with revealing collaborators. -/
theorem PrivToPKIX_rsa_run (c : Collab) (rng : Rng) (i : IdentityKey) (k : RSAPrivateKey)
    (w : Sink) (pw : List Nat) (hok : ∀ n, w.ok n = true)
    (hT : i.keyType = KEYRSA) (hk : i.rsa = some k)
    (hA : c.AEADEncryptPEMBlock = aeadReveal) (hP : c.PemEncode = pemReveal) :
    i.PrivToPKIX c rng w pw
      = ({ ok := w.ok, calls := w.calls + 1,
           out := w.out ++ (bytes "RSA PRIVATE KEY" ++ c.MarshalPKCS1PrivateKey k) }, .ok) := by
  rw [IdentityKey.PrivToPKIX, if_pos hT, hk]
  show privToPKIXBody c rng "RSA PRIVATE KEY" (.ok (c.MarshalPKCS1PrivateKey k)) w pw = _
  exact privToPKIXBody_reveal_run c rng _ _ w pw hok hA hP

/-- Run equation of `PrivToPKIX` on an ECDSA identity with revealing collaborators. -/
theorem PrivToPKIX_ecdsa_run (c : Collab) (rng : Rng) (i : IdentityKey) (k : ECDSAPrivateKey)
    (der : List Nat) (w : Sink) (pw : List Nat) (hok : ∀ n, w.ok n = true)
    (hT : i.keyType = KEYECDSA) (hk : i.ecdsa = some k)
    (hm : c.MarshalECPrivateKey k = .ok der)
    (hA : c.AEADEncryptPEMBlock = aeadReveal) (hP : c.PemEncode = pemReveal) :
    i.PrivToPKIX c rng w pw
      = ({ ok := w.ok, calls := w.calls + 1,
           out := w.out ++ (bytes "ECDSA PRIVATE KEY" ++ der) }, .ok) := by
  have hne : ¬ i.keyType = KEYRSA := by simp [hT, KEYRSA, KEYECDSA]
  rw [IdentityKey.PrivToPKIX, if_neg hne, if_pos hT, hk]
  show privToPKIXBody c rng "ECDSA PRIVATE KEY" (c.MarshalECPrivateKey k) w pw = _
  rw [hm]
  exact privToPKIXBody_reveal_run c rng _ _ w pw hok hA hP

/-- Run equation of `PrivToPKIX` on an Ed25519 identity with revealing collaborators:
the plaintext handed to the AEAD is the marshal of the `Pub` field. -/
theorem PrivToPKIX_ec25519_run (c : Collab) (rng : Rng) (i : IdentityKey)
    (k : Ed25519PrivateKey) (der : List Nat) (w : Sink) (pw : List Nat)
    (hok : ∀ n, w.ok n = true)
    (hT : i.keyType = KEYEC25519) (hk : i.ec25519 = some k)
    (hm : c.Asn1Marshal k.Pub = .ok der)
    (hA : c.AEADEncryptPEMBlock = aeadReveal) (hP : c.PemEncode = pemReveal) :
    i.PrivToPKIX c rng w pw
      = ({ ok := w.ok, calls := w.calls + 1,
           out := w.out ++ (bytes "EC25519 PRIVATE KEY" ++ der) }, .ok) := by
  have h1 : ¬ i.keyType = KEYRSA := by simp [hT, KEYRSA, KEYEC25519]
  have h2 : ¬ i.keyType = KEYECDSA := by simp [hT, KEYECDSA, KEYEC25519]
  rw [IdentityKey.PrivToPKIX, if_neg h1, if_neg h2, if_pos hT, hk]
  show privToPKIXBody c rng "EC25519 PRIVATE KEY" (c.Asn1Marshal k.Pub) w pw = _
  rw [hm]
  exact privToPKIXBody_reveal_run c rng _ _ w pw hok hA hP

/-- C5: for every validly constructed IdentityKey (any algorithm in RSA, ECDSA,
Ed25519), on success `PubToPKIX` writes exactly the header token, one separating
space, and the text-safe encoding of the compressed marshaled public key, with no
other bytes: no framing length, no checksum, no trailing newline. -/
theorem C5_pub_record_exact (c : Collab) (i : IdentityKey) :
    (∀ k bin comp, i.keyType = KEYRSA → i.rsa = some k →
        c.MarshalPKIXPublicKeyRSA k.Public = .ok bin →
        c.CompressData bin = .ok comp →
        (i.PubToPKIX c freshWriter).1.out
            = bytes "ac-rsa" ++ (bytes " " ++ c.B64EncodeData comp) ∧
          (i.PubToPKIX c freshWriter).2 = .ok) ∧
    (∀ k bin comp, i.keyType = KEYECDSA → i.ecdsa = some k →
        c.MarshalPKIXPublicKeyECDSA k.Public = .ok bin →
        c.CompressData bin = .ok comp →
        (i.PubToPKIX c freshWriter).1.out
            = bytes "ac-ecdsa" ++ (bytes " " ++ c.B64EncodeData comp) ∧
          (i.PubToPKIX c freshWriter).2 = .ok) ∧
    (∀ k bin comp, i.keyType = KEYEC25519 → i.ec25519 = some k →
        c.Asn1Marshal k.Pub = .ok bin →
        c.CompressData bin = .ok comp →
        (i.PubToPKIX c freshWriter).1.out
            = bytes "ac-25519" ++ (bytes " " ++ c.B64EncodeData comp) ∧
          (i.PubToPKIX c freshWriter).2 = .ok) := by
  have hok : ∀ n, freshWriter.ok n = true := fun _ => rfl
  refine ⟨fun k bin comp hT hk hm hc => ?_, fun k bin comp hT hk hm hc => ?_,
    fun k bin comp hT hk hm hc => ?_⟩
  · rw [PubToPKIX_rsa_run c i k bin comp freshWriter hok hT hk hm hc]
    exact ⟨rfl, rfl⟩
  · rw [PubToPKIX_ecdsa_run c i k bin comp freshWriter hok hT hk hm hc]
    exact ⟨rfl, rfl⟩
  · rw [PubToPKIX_ec25519_run c i k bin comp freshWriter hok hT hk hm hc]
    exact ⟨rfl, rfl⟩

/-- C5 witness: the RSA arm of `C5_pub_record_exact` evaluated on the concrete
identity `kRSA` and the concrete collaborators `cId`. -/
theorem C5_pub_record_exact_witness :
    (kRSA.PubToPKIX cId freshWriter).1.out
        = bytes "ac-rsa" ++ (bytes " " ++ cId.B64EncodeData [7]) ∧
      (kRSA.PubToPKIX cId freshWriter).2 = .ok :=
  (C5_pub_record_exact cId kRSA).1 { PublicKey := { data := [7] }, D := [9] } [7] [7]
    rfl rfl rfl rfl

/-- C9: `Type()` is a pure function of the stored tag (two identities with the same
tag yield the same string), it is non-empty for each valid tag, and the three valid
tags yield pairwise distinct strings. Repeated calls agree because the embedding is
a function of the unchanged entity. -/
theorem C9_type_tag (i j : IdentityKey) :
    (i.keyType = j.keyType → i.Type' = j.Type') ∧
    ((i.keyType = KEYRSA ∨ i.keyType = KEYECDSA ∨ i.keyType = KEYEC25519) →
      i.Type' ≠ "") ∧
    (i.keyType = KEYRSA → j.keyType = KEYECDSA → i.Type' ≠ j.Type') ∧
    (i.keyType = KEYRSA → j.keyType = KEYEC25519 → i.Type' ≠ j.Type') ∧
    (i.keyType = KEYECDSA → j.keyType = KEYEC25519 → i.Type' ≠ j.Type') := by
  refine ⟨fun h => ?_, fun h => ?_, fun h1 h2 => ?_, fun h1 h2 => ?_, fun h1 h2 => ?_⟩
  · simp [IdentityKey.Type', h]
  · rcases h with h | h | h <;>
      simp [IdentityKey.Type', h, KEYRSA, KEYECDSA, KEYEC25519]
  · simp [IdentityKey.Type', h1, h2, KEYRSA, KEYECDSA, KEYEC25519]
  · simp [IdentityKey.Type', h1, h2, KEYRSA, KEYECDSA, KEYEC25519]
  · simp [IdentityKey.Type', h1, h2, KEYRSA, KEYECDSA, KEYEC25519]

/-- C9 witness: the tag of the concrete RSA identity is non-empty and differs from
the tag of the concrete ECDSA identity. -/
theorem C9_type_tag_witness : kRSA.Type' ≠ "" ∧ kRSA.Type' ≠ kECDSA.Type' :=
  ⟨(C9_type_tag kRSA kECDSA).2.1 (Or.inl rfl), (C9_type_tag kRSA kECDSA).2.2.1 rfl rfl⟩

/-- C4: code-bug demonstration. On a sink whose third write fails, `PubToPKIX`
still returns nil (the write error is swallowed) and the sink observably holds the
header plus the separating space with no body. The source discards the results of
all three `wr.Write` calls. -/
theorem C4_write_failure_swallowed :
    (kRSA.PubToPKIX cId (writerFailFrom 2)).2 = .ok ∧
    (kRSA.PubToPKIX cId (writerFailFrom 2)).1.out = bytes "ac-rsa" ++ bytes " " := by
  decide

/-- C10: `PubToPKIX` is deterministic: on any two all-accepting sinks the same
identity produces the same outcome and appends the same byte sequence, so the
public record is a function of the key material and collaborators alone; the
embedding of the public path takes no randomness source at all, mirroring the
source. -/
theorem C10_pub_deterministic (c : Collab) (i : IdentityKey) (w1 w2 : Sink)
    (h1 : ∀ n, w1.ok n = true) (h2 : ∀ n, w2.ok n = true) :
    (i.PubToPKIX c w1).2 = (i.PubToPKIX c w2).2 ∧
    (i.PubToPKIX c w1).1.out.drop w1.out.length
      = (i.PubToPKIX c w2).1.out.drop w2.out.length := by
  constructor
  · rw [PubToPKIX_res c i w1 h1, PubToPKIX_res c i w2 h2]
  · rw [PubToPKIX_out c i w1 h1, PubToPKIX_out c i w2 h2,
      List.drop_left, List.drop_left]

/-- C10 witness: the same concrete ECDSA identity run against two all-accepting
sinks with different prior contents appends the same bytes and agrees on the
outcome. -/
theorem C10_pub_deterministic_witness :
    (kECDSA.PubToPKIX cId freshWriter).2
        = (kECDSA.PubToPKIX cId { ok := fun _ => true, calls := 5, out := [0, 0] }).2 ∧
      (kECDSA.PubToPKIX cId freshWriter).1.out.drop freshWriter.out.length
        = (kECDSA.PubToPKIX cId
            { ok := fun _ => true, calls := 5, out := [0, 0] }).1.out.drop
            ([0, 0] : List Nat).length :=
  C10_pub_deterministic cId kECDSA freshWriter
    { ok := fun _ => true, calls := 5, out := [0, 0] } (fun _ => rfl) (fun _ => rfl)

/-- C1: code-bug demonstration. With a failing RSA generator, `NewIdentityKey`
returns a nil error together with an entity whose slot is unpopulated: the source
captures the generator error in `err` but ends with `return i, nil`, discarding it.
Only the invalid-key-type arm propagates an error. -/
theorem C1_generator_failure_swallowed :
    gFail.GenKeysRSA [] = .error "rng failure" ∧
    NewIdentityKey gFail [] KEYRSA
      = (some { keyType := KEYRSA, rsa := none, ecdsa := none, ec25519 := none },
          none) ∧
    NewIdentityKey gFail [] 3 = (none, some "invalid type") :=
  ⟨rfl, rfl, rfl⟩

/-- C2: code-bug demonstration. For an Ed25519 identity with `Pub = [1]` and
`Priv = [2]`, under collaborators that marshal verbatim and reveal the AEAD
plaintext, the private armored block carries the marshal of the public half
`[1]`, not of the secret half `[2]`: the source passes `asn1.Marshal(i.ec25519.Pub[:])`
as the plaintext of `AEADEncryptPEMBlock`. -/
theorem C2_priv_block_holds_public_half :
    (kEC2.PrivToPKIX cId [] freshWriter []).1.out
        = bytes "EC25519 PRIVATE KEY" ++ [1] ∧
    (kEC2.PrivToPKIX cId [] freshWriter []).2 = .ok ∧
    kEC2.ec25519 = some { Pub := [1], Priv := [2] } ∧
    cId.Asn1Marshal [2] = .ok [2] ∧ ([1] : List Nat) ≠ [2] := by
  refine ⟨rfl, rfl, rfl, rfl, by decide⟩

/-- C6 counterexample: with a failing ECDSA generator, `NewIdentityKey` still
returns an entity (with a nil error) in which none of the three material slots is
populated, contradicting the claim that every successfully returned entity has
exactly one populated slot. -/
theorem C6_counterexample :
    NewIdentityKey gFail [] KEYECDSA
      = (some { keyType := KEYECDSA, rsa := none, ecdsa := none, ec25519 := none },
          none) := rfl

/-- C6 amended: whenever the underlying generator call succeeds, the entity
returned by `NewIdentityKey` has exactly the matching slot populated, the other
two absent, and the tag equal to the requested algorithm; no operation of the
embedding mutates an `IdentityKey` (they are pure functions of it). -/
theorem C6_one_slot_when_generation_succeeds (g : Gens) (rng : Rng) :
    (∀ k, g.GenKeysRSA rng = .ok k →
        NewIdentityKey g rng KEYRSA
          = (some { keyType := KEYRSA, rsa := some k, ecdsa := none, ec25519 := none },
              none)) ∧
    (∀ k, g.GenKeysECDSA rng = .ok k →
        NewIdentityKey g rng KEYECDSA
          = (some { keyType := KEYECDSA, rsa := none, ecdsa := some k, ec25519 := none },
              none)) ∧
    (∀ k, g.GenKeysED25519 rng = .ok k →
        NewIdentityKey g rng KEYEC25519
          = (some { keyType := KEYEC25519, rsa := none, ecdsa := none, ec25519 := some k },
              none)) := by
  refine ⟨fun k hk => ?_, fun k hk => ?_, fun k hk => ?_⟩ <;>
    simp [NewIdentityKey, hk, KEYRSA, KEYECDSA, KEYEC25519]

/-- C6 witness: the RSA arm of `C6_one_slot_when_generation_succeeds` evaluated on
the always-succeeding generators. -/
theorem C6_one_slot_witness :
    NewIdentityKey gOk [] KEYRSA
      = (some { keyType := KEYRSA, rsa := some { PublicKey := { data := [7] }, D := [9] },
                ecdsa := none, ec25519 := none }, none) :=
  (C6_one_slot_when_generation_succeeds gOk []).1 { PublicKey := { data := [7] }, D := [9] } rfl

/-- C8: whenever both opens succeed, `FromKeyFiles` returns a nil identity and a
nil error, having opened `prefix+".pub"` (mode 0600) and `prefix` (mode 0700) with
the flags `O_CREATE|O_TRUNC|O_WRONLY` — create, truncate, write-only — and having
parsed nothing. -/
theorem C8_from_key_files_truncates_and_loads_nothing (fs : FS) (pfx : String)
    (h1 : fs.openOk (pfx ++ ".pub") = true) (h2 : fs.openOk pfx = true) :
    FromKeyFiles fs pfx
      = { opens := [{ path := pfx ++ ".pub", flags := openFlagsCTW, mode := 0o600 },
                    { path := pfx, flags := openFlagsCTW, mode := 0o700 }],
          key := none, err := none } := by
  simp [FromKeyFiles, h1, h2]

/-- C8 witness: the statement evaluated on the all-accepting file system at the
concrete path prefix `id`. -/
theorem C8_from_key_files_witness :
    FromKeyFiles fsAll "id"
      = { opens := [{ path := "id" ++ ".pub", flags := openFlagsCTW, mode := 0o600 },
                    { path := "id", flags := openFlagsCTW, mode := 0o700 }],
          key := none, err := none } :=
  C8_from_key_files_truncates_and_loads_nothing fsAll "id" rfl rfl

/-- C3 counterexample: for a concrete Ed25519 identity the record that `PubToPKIX`
writes does not begin with the bytes of `Type()`: the emitted header is `ac-25519`
while `Type()` returns `ac-ec25519`. -/
theorem C3_counterexample :
    (kEC.PubToPKIX cId freshWriter).2 = .ok ∧
    kEC.Type' = "ac-ec25519" ∧
    (kEC.PubToPKIX cId freshWriter).1.out = bytes "ac-25519" ++ bytes " " ∧
    (kEC.PubToPKIX cId freshWriter).1.out.take (bytes kEC.Type').length
      ≠ bytes kEC.Type' := by
  refine ⟨rfl, rfl, rfl, by decide⟩

/-- C3 amended: the emitted header equals `Type()` for RSA and ECDSA on the public
path, but the Ed25519 public record carries `ac-25519` while `Type()` returns
`ac-ec25519`; and the private path emits the PEM header names `RSA PRIVATE KEY`,
`ECDSA PRIVATE KEY`, `EC25519 PRIVATE KEY`, none of which equals `Type()`. -/
theorem C3_amended_headers (c : Collab) (i : IdentityKey) (rng : Rng) (pw : List Nat)
    (hA : c.AEADEncryptPEMBlock = aeadReveal) (hP : c.PemEncode = pemReveal) :
    (∀ k bin comp, i.keyType = KEYRSA → i.rsa = some k →
        c.MarshalPKIXPublicKeyRSA k.Public = .ok bin → c.CompressData bin = .ok comp →
        (i.PubToPKIX c freshWriter).1.out.take (bytes i.Type').length
          = bytes i.Type') ∧
    (∀ k bin comp, i.keyType = KEYECDSA → i.ecdsa = some k →
        c.MarshalPKIXPublicKeyECDSA k.Public = .ok bin → c.CompressData bin = .ok comp →
        (i.PubToPKIX c freshWriter).1.out.take (bytes i.Type').length
          = bytes i.Type') ∧
    (∀ k bin comp, i.keyType = KEYEC25519 → i.ec25519 = some k →
        c.Asn1Marshal k.Pub = .ok bin → c.CompressData bin = .ok comp →
        (i.PubToPKIX c freshWriter).1.out.take (bytes "ac-25519").length
            = bytes "ac-25519" ∧
          i.Type' = "ac-ec25519" ∧ bytes "ac-25519" ≠ bytes i.Type') ∧
    (∀ k, i.keyType = KEYRSA → i.rsa = some k →
        (i.PrivToPKIX c rng freshWriter pw).1.out.take (bytes "RSA PRIVATE KEY").length
            = bytes "RSA PRIVATE KEY" ∧
          "RSA PRIVATE KEY" ≠ i.Type') ∧
    (∀ k der, i.keyType = KEYECDSA → i.ecdsa = some k →
        c.MarshalECPrivateKey k = .ok der →
        (i.PrivToPKIX c rng freshWriter pw).1.out.take (bytes "ECDSA PRIVATE KEY").length
            = bytes "ECDSA PRIVATE KEY" ∧
          "ECDSA PRIVATE KEY" ≠ i.Type') ∧
    (∀ k der, i.keyType = KEYEC25519 → i.ec25519 = some k →
        c.Asn1Marshal k.Pub = .ok der →
        (i.PrivToPKIX c rng freshWriter pw).1.out.take (bytes "EC25519 PRIVATE KEY").length
            = bytes "EC25519 PRIVATE KEY" ∧
          "EC25519 PRIVATE KEY" ≠ i.Type') := by
  have hok : ∀ n, freshWriter.ok n = true := fun _ => rfl
  refine ⟨fun k bin comp hT hk hm hc => ?_, fun k bin comp hT hk hm hc => ?_,
    fun k bin comp hT hk hm hc => ?_, fun k hT hk => ?_,
    fun k der hT hk hm => ?_, fun k der hT hk hm => ?_⟩
  · have hty : i.Type' = "ac-rsa" := by simp [IdentityKey.Type', hT]
    rw [PubToPKIX_rsa_run c i k bin comp freshWriter hok hT hk hm hc, hty]
    simp [freshWriter]
  · have hty : i.Type' = "ac-ecdsa" := by
      simp [IdentityKey.Type', hT, KEYRSA, KEYECDSA]
    rw [PubToPKIX_ecdsa_run c i k bin comp freshWriter hok hT hk hm hc, hty]
    simp [freshWriter]
  · have hty : i.Type' = "ac-ec25519" := by
      simp [IdentityKey.Type', hT, KEYRSA, KEYECDSA, KEYEC25519]
    refine ⟨?_, hty, by rw [hty]; decide⟩
    rw [PubToPKIX_ec25519_run c i k bin comp freshWriter hok hT hk hm hc]
    simp [freshWriter]
  · have hty : i.Type' = "ac-rsa" := by simp [IdentityKey.Type', hT]
    refine ⟨?_, by rw [hty]; decide⟩
    rw [PrivToPKIX_rsa_run c rng i k freshWriter pw hok hT hk hA hP]
    simp [freshWriter]
  · have hty : i.Type' = "ac-ecdsa" := by
      simp [IdentityKey.Type', hT, KEYRSA, KEYECDSA]
    refine ⟨?_, by rw [hty]; decide⟩
    rw [PrivToPKIX_ecdsa_run c rng i k der freshWriter pw hok hT hk hm hA hP]
    simp [freshWriter]
  · have hty : i.Type' = "ac-ec25519" := by
      simp [IdentityKey.Type', hT, KEYRSA, KEYECDSA, KEYEC25519]
    refine ⟨?_, by rw [hty]; decide⟩
    rw [PrivToPKIX_ec25519_run c rng i k der freshWriter pw hok hT hk hm hA hP]
    simp [freshWriter]

/-- C3 witness: the RSA public arm and the Ed25519 public arm of
`C3_amended_headers` evaluated on the concrete identities and collaborators. -/
theorem C3_amended_headers_witness :
    (kRSA.PubToPKIX cId freshWriter).1.out.take (bytes kRSA.Type').length
        = bytes kRSA.Type' ∧
      (kEC2.PubToPKIX cId freshWriter).1.out.take (bytes "ac-25519").length
          = bytes "ac-25519" ∧
        kEC2.Type' = "ac-ec25519" ∧ bytes "ac-25519" ≠ bytes kEC2.Type' :=
  ⟨(C3_amended_headers cId kRSA [] [] rfl rfl).1
      { PublicKey := { data := [7] }, D := [9] } [7] [7] rfl rfl rfl rfl,
    (C3_amended_headers cId kEC2 [] [] rfl rfl).2.2.1
      { Pub := [1], Priv := [2] } [1] [1] rfl rfl rfl rfl⟩

/-- When both opens succeed, `ToKeyFiles` issues exactly two open requests: the
public path `pfx+".pub"` with mode 0600 and the private path `pfx` with mode 0700,
both with flags `O_CREATE|O_TRUNC|O_WRONLY`, whatever the identity is. -/
theorem ToKeyFiles_opens_run (c : Collab) (fs : FS) (rng : Rng) (i : IdentityKey)
    (pfx : String) (pw : List Nat) (hOpen : ∀ p, fs.openOk p = true) :
    (i.ToKeyFiles c fs rng pfx pw).opens
      = [{ path := pfx ++ ".pub", flags := openFlagsCTW, mode := 0o600 },
         { path := pfx, flags := openFlagsCTW, mode := 0o700 }] := by
  unfold IdentityKey.ToKeyFiles
  simp only [hOpen, reduceIte]
  cases hpub : i.PubToPKIX c { ok := fs.sched (pfx ++ ".pub"), calls := 0, out := [] } with
  | mk w' r =>
    cases r with
    | ok =>
      cases hpriv : i.PrivToPKIX c rng { ok := fs.sched pfx, calls := 0, out := [] } pw with
      | mk w'' r2 => rfl
    | goErr e => rfl
    | nilPanic => rfl

/-- Full run of `ToKeyFiles` on an RSA identity with successful and revealing
collaborators: the public record lands in the public file, the private block in
the private file. -/
theorem ToKeyFiles_rsa_run (c : Collab) (fs : FS) (rng : Rng) (i : IdentityKey)
    (k : RSAPrivateKey) (bin comp : List Nat) (pfx : String) (pw : List Nat)
    (hOpen : ∀ p, fs.openOk p = true) (hS : ∀ p n, fs.sched p n = true)
    (hA : c.AEADEncryptPEMBlock = aeadReveal) (hP : c.PemEncode = pemReveal)
    (hT : i.keyType = KEYRSA) (hk : i.rsa = some k)
    (hm : c.MarshalPKIXPublicKeyRSA k.Public = .ok bin)
    (hc : c.CompressData bin = .ok comp) :
    i.ToKeyFiles c fs rng pfx pw
      = { opens := [{ path := pfx ++ ".pub", flags := openFlagsCTW, mode := 0o600 },
                    { path := pfx, flags := openFlagsCTW, mode := 0o700 }],
          pubOut := bytes "ac-rsa" ++ (bytes " " ++ c.B64EncodeData comp),
          privOut := bytes "RSA PRIVATE KEY" ++ c.MarshalPKCS1PrivateKey k,
          res := .ok } := by
  have h1 := PubToPKIX_rsa_run c i k bin comp
    { ok := fs.sched (pfx ++ ".pub"), calls := 0, out := [] } (fun n => hS _ n) hT hk hm hc
  have h2 := PrivToPKIX_rsa_run c rng i k
    { ok := fs.sched pfx, calls := 0, out := [] } pw (fun n => hS _ n) hT hk hA hP
  simp [IdentityKey.ToKeyFiles, hOpen, h1, h2]

/-- Full run of `ToKeyFiles` on an ECDSA identity with successful and revealing
collaborators. -/
theorem ToKeyFiles_ecdsa_run (c : Collab) (fs : FS) (rng : Rng) (i : IdentityKey)
    (k : ECDSAPrivateKey) (bin comp der : List Nat) (pfx : String) (pw : List Nat)
    (hOpen : ∀ p, fs.openOk p = true) (hS : ∀ p n, fs.sched p n = true)
    (hA : c.AEADEncryptPEMBlock = aeadReveal) (hP : c.PemEncode = pemReveal)
    (hT : i.keyType = KEYECDSA) (hk : i.ecdsa = some k)
    (hm : c.MarshalPKIXPublicKeyECDSA k.Public = .ok bin)
    (hc : c.CompressData bin = .ok comp)
    (hd : c.MarshalECPrivateKey k = .ok der) :
    i.ToKeyFiles c fs rng pfx pw
      = { opens := [{ path := pfx ++ ".pub", flags := openFlagsCTW, mode := 0o600 },
                    { path := pfx, flags := openFlagsCTW, mode := 0o700 }],
          pubOut := bytes "ac-ecdsa" ++ (bytes " " ++ c.B64EncodeData comp),
          privOut := bytes "ECDSA PRIVATE KEY" ++ der,
          res := .ok } := by
  have h1 := PubToPKIX_ecdsa_run c i k bin comp
    { ok := fs.sched (pfx ++ ".pub"), calls := 0, out := [] } (fun n => hS _ n) hT hk hm hc
  have h2 := PrivToPKIX_ecdsa_run c rng i k der
    { ok := fs.sched pfx, calls := 0, out := [] } pw (fun n => hS _ n) hT hk hd hA hP
  simp [IdentityKey.ToKeyFiles, hOpen, h1, h2]

/-- Full run of `ToKeyFiles` on an Ed25519 identity with successful and revealing
collaborators. -/
theorem ToKeyFiles_ec25519_run (c : Collab) (fs : FS) (rng : Rng) (i : IdentityKey)
    (k : Ed25519PrivateKey) (bin comp : List Nat) (pfx : String) (pw : List Nat)
    (hOpen : ∀ p, fs.openOk p = true) (hS : ∀ p n, fs.sched p n = true)
    (hA : c.AEADEncryptPEMBlock = aeadReveal) (hP : c.PemEncode = pemReveal)
    (hT : i.keyType = KEYEC25519) (hk : i.ec25519 = some k)
    (hm : c.Asn1Marshal k.Pub = .ok bin)
    (hc : c.CompressData bin = .ok comp) :
    i.ToKeyFiles c fs rng pfx pw
      = { opens := [{ path := pfx ++ ".pub", flags := openFlagsCTW, mode := 0o600 },
                    { path := pfx, flags := openFlagsCTW, mode := 0o700 }],
          pubOut := bytes "ac-25519" ++ (bytes " " ++ c.B64EncodeData comp),
          privOut := bytes "EC25519 PRIVATE KEY" ++ bin,
          res := .ok } := by
  have h1 := PubToPKIX_ec25519_run c i k bin comp
    { ok := fs.sched (pfx ++ ".pub"), calls := 0, out := [] } (fun n => hS _ n) hT hk hm hc
  have h2 := PrivToPKIX_ec25519_run c rng i k bin
    { ok := fs.sched pfx, calls := 0, out := [] } pw (fun n => hS _ n) hT hk hm hA hP
  simp [IdentityKey.ToKeyFiles, hOpen, h1, h2]

/-- C7 counterexample: on a concrete run, the mode requested for the public file
is 0600, whose other-read bit is clear — not world-readable — and the mode
requested for the private file is 0700, not the owner-only read/write 0600. -/
theorem C7_counterexample :
    (kRSA.ToKeyFiles cId fsAll [] "id" []).opens
        = [{ path := "id" ++ ".pub", flags := openFlagsCTW, mode := 0o600 },
           { path := "id", flags := openFlagsCTW, mode := 0o700 }] ∧
    (0o600 / 4) % 2 = 0 ∧ (0o700 : Nat) ≠ 0o600 := by
  refine ⟨?_, by decide, by decide⟩
  decide

/-- C7 amended: `ToKeyFiles` writes the public record to `prefix+".pub"` and the
private armored block to `prefix`, requesting owner read/write (0600) permissions
for the public file and owner read/write/execute (0700) permissions for the
private file, both opened with create/truncate/write-only flags. -/
theorem C7_amended_paths_and_modes (c : Collab) (fs : FS) (rng : Rng)
    (i : IdentityKey) (pfx : String) (pw : List Nat)
    (hOpen : ∀ p, fs.openOk p = true) (hS : ∀ p n, fs.sched p n = true)
    (hA : c.AEADEncryptPEMBlock = aeadReveal) (hP : c.PemEncode = pemReveal) :
    (i.ToKeyFiles c fs rng pfx pw).opens
        = [{ path := pfx ++ ".pub", flags := openFlagsCTW, mode := 0o600 },
           { path := pfx, flags := openFlagsCTW, mode := 0o700 }] ∧
    (∀ k bin comp, i.keyType = KEYRSA → i.rsa = some k →
        c.MarshalPKIXPublicKeyRSA k.Public = .ok bin → c.CompressData bin = .ok comp →
        (i.ToKeyFiles c fs rng pfx pw).pubOut
            = bytes "ac-rsa" ++ (bytes " " ++ c.B64EncodeData comp) ∧
          (i.ToKeyFiles c fs rng pfx pw).privOut
            = bytes "RSA PRIVATE KEY" ++ c.MarshalPKCS1PrivateKey k ∧
          (i.ToKeyFiles c fs rng pfx pw).res = .ok) ∧
    (∀ k bin comp der, i.keyType = KEYECDSA → i.ecdsa = some k →
        c.MarshalPKIXPublicKeyECDSA k.Public = .ok bin → c.CompressData bin = .ok comp →
        c.MarshalECPrivateKey k = .ok der →
        (i.ToKeyFiles c fs rng pfx pw).pubOut
            = bytes "ac-ecdsa" ++ (bytes " " ++ c.B64EncodeData comp) ∧
          (i.ToKeyFiles c fs rng pfx pw).privOut = bytes "ECDSA PRIVATE KEY" ++ der ∧
          (i.ToKeyFiles c fs rng pfx pw).res = .ok) ∧
    (∀ k bin comp, i.keyType = KEYEC25519 → i.ec25519 = some k →
        c.Asn1Marshal k.Pub = .ok bin → c.CompressData bin = .ok comp →
        (i.ToKeyFiles c fs rng pfx pw).pubOut
            = bytes "ac-25519" ++ (bytes " " ++ c.B64EncodeData comp) ∧
          (i.ToKeyFiles c fs rng pfx pw).privOut = bytes "EC25519 PRIVATE KEY" ++ bin ∧
          (i.ToKeyFiles c fs rng pfx pw).res = .ok) := by
  refine ⟨ToKeyFiles_opens_run c fs rng i pfx pw hOpen,
    fun k bin comp hT hk hm hc => ?_, fun k bin comp der hT hk hm hc hd => ?_,
    fun k bin comp hT hk hm hc => ?_⟩
  · rw [ToKeyFiles_rsa_run c fs rng i k bin comp pfx pw hOpen hS hA hP hT hk hm hc]
    exact ⟨rfl, rfl, rfl⟩
  · rw [ToKeyFiles_ecdsa_run c fs rng i k bin comp der pfx pw hOpen hS hA hP hT hk hm hc hd]
    exact ⟨rfl, rfl, rfl⟩
  · rw [ToKeyFiles_ec25519_run c fs rng i k bin comp pfx pw hOpen hS hA hP hT hk hm hc]
    exact ⟨rfl, rfl, rfl⟩

/-- C7 witness: the opens conjunct and the RSA arm of
`C7_amended_paths_and_modes` evaluated on the concrete RSA identity, the
identity-like collaborators, and the all-accepting file system. -/
theorem C7_amended_paths_and_modes_witness :
    (kRSA.ToKeyFiles cId fsAll [] "id" []).opens
        = [{ path := "id" ++ ".pub", flags := openFlagsCTW, mode := 0o600 },
           { path := "id", flags := openFlagsCTW, mode := 0o700 }] ∧
      (kRSA.ToKeyFiles cId fsAll [] "id" []).pubOut
          = bytes "ac-rsa" ++ (bytes " " ++ cId.B64EncodeData [7]) ∧
        (kRSA.ToKeyFiles cId fsAll [] "id" []).privOut
            = bytes "RSA PRIVATE KEY" ++ cId.MarshalPKCS1PrivateKey
                { PublicKey := { data := [7] }, D := [9] } ∧
          (kRSA.ToKeyFiles cId fsAll [] "id" []).res = .ok :=
  ⟨(C7_amended_paths_and_modes cId fsAll [] kRSA "id" []
      (fun _ => rfl) (fun _ _ => rfl) rfl rfl).1,
    (C7_amended_paths_and_modes cId fsAll [] kRSA "id" []
      (fun _ => rfl) (fun _ _ => rfl) rfl rfl).2.1
      { PublicKey := { data := [7] }, D := [9] } [7] [7] rfl rfl rfl rfl⟩
